import Mathlib

/-!
Verification of the ungoogled-chromium Windows build orchestrator
(src/build.py and src/build_llvm.py) against its specification.

The Python code is shallowly embedded. Collaborator and filesystem
outcomes are inputs (a `World` value), side effects become events in a
trace (`Ev`), a Python `exit(n)` or an uncaught exception becomes a
`Term` value, and the orchestrator `main` becomes a pure function from
the parsed arguments and the world to a trace plus an optional
termination (where `none` means the script fell off the end and the
interpreter exits with code 0).
-/

/-- Python exception values that the embedded code raises or observes.
`calledProcessError` is what `subprocess.run(check=True)` raises on a
non-zero exit code; `runtimeError` is raised by `_get_vcvars_path` and by
`_run_build_process_timeout`; `hashMismatchError` comes from
`downloads.check_downloads`; `fileExistsError` from `Path.mkdir`. -/
inductive PyExc where
  | keyboardInterrupt
  | runtimeError (msg : String)
  | calledProcessError (returncode : Int)
  | hashMismatchError
  | fileExistsError
  | other (name : String)
deriving DecidableEq

/-- Directories the orchestrator changes into: `_ROOT_DIR` (the launch
directory of build.py) and the extracted source tree
`_ROOT_DIR / build / src`. -/
inductive Dir where
  | rootDir
  | sourceTree
deriving DecidableEq

/-- Observable side effects of `main` (build.py), in program order. -/
inductive Ev where
  | mkdirSourceTree
  | mkdirDownloadsCache
  | makeTmpPaths
  | download
  | sleep (seconds : Nat)
  | checkDownloads
  | reportError (msg : String)
  | unpack
  | prune
  | applyPatches
  | domainSubstitution
  | pgoDownload
  | mkdirOutDefault
  | writeArgsGn (content : String)
  | chdir (d : Dir)
  | runGnBootstrap
  | runGnGen
  | runNinja
  | runPackage
deriving DecidableEq

/-- How a run of the script terminates early: an explicit `exit(code)`
or an uncaught Python exception (for which the interpreter reports a
traceback and exits nonzero, but not through the orchestrator's own
exit-code translation). -/
inductive Term where
  | exited (code : Nat)
  | raised (e : PyExc)
deriving DecidableEq

/-- The `Step` enumeration of build.py, in declared order. -/
inductive Step where
  | setupEnvironment
  | downloadPgoProfiles
  | createArgsGn
  | bootstrapGn
  | build
  | package
deriving DecidableEq

/-- The parsed command-line arguments of build.py (`Args`), restricted
to the fields `main` consults for control flow and file content. -/
structure Args where
  ci : Bool
  x86 : Bool
  disable_ssl_verification : Bool
  step : Step
  force : Bool
  skip_domsub : Bool

/-- On-disk completion markers that gate steps in CI mode. -/
structure FsState where
  buildGnExists : Bool
  outDefaultExists : Bool
  gnExeExists : Bool

/-- Outcomes of all collaborator calls and filesystem facts a run can
observe: the world the embedded `main` executes against.
`retrieveOutcome n` is the outcome of the n-th (0-based) call to
`downloads.retrieve_downloads`; the returncode fields are the exit codes
of the tool invocations made through `_run_build_process`. -/
structure World where
  fs : FsState
  gnFlagsText : String
  windowsFlagsText : String
  retrieveOutcome : Nat → Except PyExc Unit
  checkOutcome : Except PyExc Unit
  unpackOutcome : Except PyExc Unit
  pruneUnremovable : Bool
  patchesOutcome : Except PyExc Unit
  domsubOutcome : Except PyExc Unit
  pgoOutcome : Except PyExc Unit
  vcvarsFound : Bool
  gnBootstrapReturncode : Int
  gnGenReturncode : Int
  ninjaReturncode : Int

/-- Test used for the `err` argument of `retry_on_fail` at its only call
site in `main`, which passes `subprocess.CalledProcessError`. -/
def isCalledProcessError : PyExc → Bool
  | .calledProcessError _ => true
  | _ => false

/-- Embedding of the loop of `retry_on_fail` (build.py:262-271) over the
remaining attempt numbers. The callback takes the number of calls made
so far and returns the events of that call plus its outcome. A matching
exception produces a `time.sleep(5)` and a further attempt; a
non-matching exception propagates (`Except.error`); success returns
`True`; an exhausted loop returns `False`. -/
def retry_on_fail_go (matchesErr : PyExc → Bool)
    (callback : Nat → List Ev × Except PyExc Unit) :
    List Nat → Nat → List Ev × Except PyExc Bool
  | [], _ => ([], Except.ok false)
  | _ :: rest, calls =>
    match callback calls with
    | (cevs, Except.ok _) => (cevs, Except.ok true)
    | (cevs, Except.error e) =>
      if matchesErr e then
        match retry_on_fail_go matchesErr callback rest (calls + 1) with
        | (evs, res) => (cevs ++ Ev.sleep 5 :: evs, res)
      else (cevs, Except.error e)

/-- Embedding of `retry_on_fail` (build.py:262-271): `for attempt in
range(1, 6)` gives the attempt numbers 1..5. -/
def retry_on_fail (matchesErr : PyExc → Bool)
    (callback : Nat → List Ev × Except PyExc Unit) :
    List Ev × Except PyExc Bool :=
  retry_on_fail_go matchesErr callback [1, 2, 3, 4, 5] 0

/-- Embedding of Python `str.replace` on character lists for a non-empty
pattern: every non-overlapping occurrence is replaced, scanning left to
right. The recursion is bounded by a fuel argument so that it stays
structural; every step consumes at least one character, so fuel equal to
the input length never runs out. `main` only uses this as
`windows_flags.replace('x64', 'x86')`. -/
def pyReplaceAux (pat rep : List Char) : Nat → List Char → List Char
  | _, [] => []
  | 0, l => l
  | fuel + 1, c :: rest =>
    if pat ≠ [] ∧ pat.isPrefixOf (c :: rest) then
      rep ++ pyReplaceAux pat rep fuel ((c :: rest).drop pat.length)
    else
      c :: pyReplaceAux pat rep fuel rest

/-- String-level wrapper for `pyReplaceAux`. -/
def pyReplace (s pat rep : String) : String :=
  ⟨pyReplaceAux pat.data rep.data s.data.length s.data⟩

example : pyReplace "a x64 b x64x64" "x64" "x86" = "a x86 b x86x86" := by decide

/-- Content written to `out/Default/args.gn` by the CreateArgsGn block
(build.py:393-401): the text of `ungoogled-chromium/flags.gn`, a
newline, then the text of `flags.windows.gn`, with `x64` replaced by
`x86` when building 32-bit. -/
def argsGnContent (x86 : Bool) (gnFlagsText windowsFlagsText : String) : String :=
  gnFlagsText ++ "\n" ++
    (if x86 then pyReplace windowsFlagsText "x64" "x86" else windowsFlagsText)

/-- Semantics of Python `Path.mkdir`: raises `FileExistsError` when the
target directory already exists and `exist_ok` is not set; `parents`
only affects missing ancestors. -/
def pathMkdir (alreadyExists : Bool) (_parents exist_ok : Bool) : Except PyExc Unit :=
  if alreadyExists && !exist_ok then Except.error PyExc.fileExistsError
  else Except.ok ()

/-- Embedding of `_run_build_process` (build.py:186-199): composing the
command script calls `_get_vcvars_path`, which raises `RuntimeError` if
the vcvars batch script cannot be located; then `subprocess.run` with
`check=True` raises `subprocess.CalledProcessError` if the tool exits
non-zero. -/
def run_build_process (vcvarsFound : Bool) (returncode : Int) : Except PyExc Unit :=
  if !vcvarsFound then
    Except.error (PyExc.runtimeError "Could not find vcvars batch script in expected location")
  else if returncode != 0 then Except.error (PyExc.calledProcessError returncode)
  else Except.ok ()

example : run_build_process true 0 = Except.ok () := rfl
example : run_build_process true 1 = Except.error (PyExc.calledProcessError 1) := rfl

/-- Behaviour of the child process launched by
`_run_build_process_timeout`: whether `proc.wait(timeout)` returns in
time, the returncode if it does, and whether the process exits within
the 10-second `proc.wait(10)` that follows the interrupt signals. -/
structure ChildProc where
  exitsWithinTimeout : Bool
  returncode : Int
  exitsAfterInterrupt : Bool

/-- Observable actions of `_run_build_process_timeout`. -/
inductive ProcEv where
  | feedScript
  | waitChild (seconds : Nat)
  | ctrlEvent
  | procSleep (seconds : Nat)
  | kill
deriving DecidableEq

/-- Duration in seconds of the blocking actions of the runner. -/
def ProcEv.delay : ProcEv → Nat
  | .waitChild s => s
  | .procSleep s => s
  | _ => 0

/-- Events of the escalation loop `for _ in range(3):
GenerateConsoleCtrlEvent(1, proc.pid); time.sleep(1)` (build.py:221-223). -/
def interruptSignals : List ProcEv :=
  List.flatten (List.replicate 3 [ProcEv.ctrlEvent, ProcEv.procSleep 1])

/-- Embedding of `_run_build_process_timeout` (build.py:201-228).
Composing the command script calls `_get_vcvars_path` first (RuntimeError
if vcvars is missing, before the process starts). Then the script is fed
to the shell on stdin and the runner blocks in `proc.wait(timeout)`. On
exit within the bound, a non-zero returncode raises RuntimeError. On
`subprocess.TimeoutExpired`, the runner sends the console-interrupt
event to the process group three times, sleeping one second after each,
waits up to ten more seconds, kills the process if that wait also times
out (the bare `except` around `proc.wait(10)`), and then raises
`KeyboardInterrupt` unconditionally. -/
def run_build_process_timeout (vcvarsFound : Bool) (p : ChildProc) (timeout : Nat) :
    List ProcEv × Except PyExc Unit :=
  if !vcvarsFound then
    ([], Except.error (PyExc.runtimeError "Could not find vcvars batch script in expected location"))
  else if p.exitsWithinTimeout then
    if p.returncode != 0 then
      ([ProcEv.feedScript, ProcEv.waitChild timeout], Except.error (PyExc.runtimeError "Build failed!"))
    else
      ([ProcEv.feedScript, ProcEv.waitChild timeout], Except.ok ())
  else
    ([ProcEv.feedScript, ProcEv.waitChild timeout] ++ interruptSignals ++ [ProcEv.waitChild 10] ++
       (if p.exitsAfterInterrupt then [] else [ProcEv.kill]),
     Except.error PyExc.keyboardInterrupt)

/-- Embedding of the module body of src/build_llvm.py: it runs the clang
build through `_run_build_process_timeout` with `timeout=3.5*60*60`
(12600 seconds), translating `KeyboardInterrupt` to `exit(124)` and
`RuntimeError` to `exit(123)`; on success the module ends and the
interpreter exits with code 0 (`none`). -/
def build_llvm_run (vcvarsFound : Bool) (p : ChildProc) : List ProcEv × Option Term :=
  match run_build_process_timeout vcvarsFound p 12600 with
  | (evs, Except.ok _) => (evs, none)
  | (evs, Except.error PyExc.keyboardInterrupt) => (evs, some (Term.exited 124))
  | (evs, Except.error (PyExc.runtimeError _)) => (evs, some (Term.exited 123))
  | (evs, Except.error e) => (evs, some (Term.raised e))

/-- Sequencing of two pieces of `main`: if the first piece terminated
the process (exit or uncaught exception), the second never runs;
otherwise the traces concatenate. -/
def seqRun (r : List Ev × Option Term) (next : Unit → List Ev × Option Term) :
    List Ev × Option Term :=
  match r.2 with
  | some t => (r.1, some t)
  | none => (r.1 ++ (next ()).1, (next ()).2)

/-- Guard of a conditional block of `main`: when the gate is false the
block contributes nothing. -/
def runIf (b : Bool) (body : Unit → List Ev × Option Term) : List Ev × Option Term :=
  if b then body () else ([], none)

/-- Gate of the setup-environment block (build.py:295): `not args.ci or
(args.step == Step.SETUP_ENVIRONMENT and (not (source_tree /
BUILD.gn).exists() or args.force))`. -/
def setupGate (a : Args) (fs : FsState) : Bool :=
  !a.ci || ((if a.step = Step.setupEnvironment then true else false) &&
    (!fs.buildGnExists || a.force))

/-- Gate of the PGO-profile block (build.py:370). -/
def pgoGate (a : Args) : Bool :=
  !a.ci || (if a.step = Step.downloadPgoProfiles then true else false)

/-- Gate of the args.gn block (build.py:391). -/
def createArgsGate (a : Args) (fs : FsState) : Bool :=
  !a.ci || ((if a.step = Step.createArgsGn then true else false) &&
    (!fs.outDefaultExists || a.force))

/-- Gate of the gn-bootstrap block (build.py:406). -/
def bootstrapGate (a : Args) (fs : FsState) : Bool :=
  !a.ci || ((if a.step = Step.bootstrapGn then true else false) &&
    (!fs.gnExeExists || a.force))

/-- Tail of the setup-environment block after a successful download
phase (build.py:321-368): the checksum verification, whose
`HashMismatchError` is reported and turned into `exit(1)` while any
other exception propagates, then unpacking, pruning (a non-empty
leftover list is `exit(1)`), patching, and the optional domain
substitution; collaborator exceptions propagate. -/
def setupTail (a : Args) (w : World) : List Ev × Option Term :=
  match w.checkOutcome with
  | Except.error PyExc.hashMismatchError =>
    ([Ev.checkDownloads, Ev.reportError "File checksum does not match"],
     some (Term.exited 1))
  | Except.error e => ([Ev.checkDownloads], some (Term.raised e))
  | Except.ok _ =>
    match w.unpackOutcome with
    | Except.error e => ([Ev.checkDownloads, Ev.unpack], some (Term.raised e))
    | Except.ok _ =>
      if w.pruneUnremovable then
        ([Ev.checkDownloads, Ev.unpack, Ev.prune], some (Term.exited 1))
      else
        match w.patchesOutcome with
        | Except.error e =>
          ([Ev.checkDownloads, Ev.unpack, Ev.prune, Ev.applyPatches],
           some (Term.raised e))
        | Except.ok _ =>
          if a.skip_domsub then
            ([Ev.checkDownloads, Ev.unpack, Ev.prune, Ev.applyPatches], none)
          else
            match w.domsubOutcome with
            | Except.error e =>
              ([Ev.checkDownloads, Ev.unpack, Ev.prune, Ev.applyPatches,
                Ev.domainSubstitution], some (Term.raised e))
            | Except.ok _ =>
              ([Ev.checkDownloads, Ev.unpack, Ev.prune, Ev.applyPatches,
                Ev.domainSubstitution], none)

/-- Body of the setup-environment block (build.py:296-368): directory
creation, the retried download (an exhausted retry is reported and is
`exit(1)`, a non-matching download exception propagates), then the
post-download tail. -/
def setupEnvironmentBody (a : Args) (w : World) : List Ev × Option Term :=
  let pre := [Ev.mkdirSourceTree, Ev.mkdirDownloadsCache, Ev.makeTmpPaths]
  match retry_on_fail isCalledProcessError (fun n => ([Ev.download], w.retrieveOutcome n)) with
  | (revs, Except.error e) => (pre ++ revs, some (Term.raised e))
  | (revs, Except.ok false) =>
    (pre ++ revs ++ [Ev.reportError "All download retry attempts exceeded, exiting"],
     some (Term.exited 1))
  | (revs, Except.ok true) =>
    (pre ++ revs ++ (setupTail a w).1, (setupTail a w).2)

/-- Body of the PGO-profile block (build.py:371-389), abstracted to one
collaborator call whose failure propagates. -/
def downloadPgoBody (w : World) : List Ev × Option Term :=
  ([Ev.pgoDownload],
   match w.pgoOutcome with
   | Except.ok _ => none
   | Except.error e => some (Term.raised e))

/-- Body of the args.gn block (build.py:393-401): `(source_tree /
out/Default).mkdir(parents=True)` (no `exist_ok`, so an existing
directory raises FileExistsError and nothing is written), then the
composed flag text is written to `out/Default/args.gn`. -/
def createArgsGnBody (a : Args) (w : World) : List Ev × Option Term :=
  match pathMkdir w.fs.outDefaultExists true false with
  | Except.error e => ([Ev.mkdirOutDefault], some (Term.raised e))
  | Except.ok _ =>
    ([Ev.mkdirOutDefault,
      Ev.writeArgsGn (argsGnContent a.x86 w.gnFlagsText w.windowsFlagsText)], none)

/-- Body of the gn-bootstrap block (build.py:407-415): two
`_run_build_process` invocations; a failure of either propagates
(there is no handler around them). -/
def bootstrapGnBlock (w : World) : List Ev × Option Term :=
  match run_build_process w.vcvarsFound w.gnBootstrapReturncode with
  | Except.error e => ([Ev.runGnBootstrap], some (Term.raised e))
  | Except.ok _ =>
    match run_build_process w.vcvarsFound w.gnGenReturncode with
    | Except.error e => ([Ev.runGnBootstrap, Ev.runGnGen], some (Term.raised e))
    | Except.ok _ => ([Ev.runGnBootstrap, Ev.runGnGen], none)

/-- Body of the CI build step (build.py:420-427): ninja through
`_run_build_process` inside `try ... except KeyboardInterrupt:
exit(124) except RuntimeError: exit(123)`; any other exception (in
particular `subprocess.CalledProcessError` from `check=True`)
propagates. -/
def ciBuildBlock (w : World) : List Ev × Option Term :=
  ([Ev.runNinja],
   match run_build_process w.vcvarsFound w.ninjaReturncode with
   | Except.ok _ => none
   | Except.error PyExc.keyboardInterrupt => some (Term.exited 124)
   | Except.error (PyExc.runtimeError _) => some (Term.exited 123)
   | Except.error e => some (Term.raised e))

/-- The non-CI tail of `main` (build.py:435-436): ninja with no handler. -/
def nonCiNinja (w : World) : List Ev × Option Term :=
  ([Ev.runNinja],
   match run_build_process w.vcvarsFound w.ninjaReturncode with
   | Except.ok _ => none
   | Except.error e => some (Term.raised e))

/-- Embedding of `main` (build.py:273-436): the four gated blocks, the
unconditional `os.chdir(source_tree)` (build.py:404), and the final
CI/non-CI dispatch, where the CI package step changes back to
`_ROOT_DIR` before invoking package.py (build.py:429-433). -/
def mainRun (a : Args) (w : World) : List Ev × Option Term :=
  seqRun (runIf (setupGate a w.fs) fun _ => setupEnvironmentBody a w) fun _ =>
  seqRun (runIf (pgoGate a) fun _ => downloadPgoBody w) fun _ =>
  seqRun (runIf (createArgsGate a w.fs) fun _ => createArgsGnBody a w) fun _ =>
  seqRun ([Ev.chdir Dir.sourceTree], none) fun _ =>
  seqRun (runIf (bootstrapGate a w.fs) fun _ => bootstrapGnBlock w) fun _ =>
  if a.ci then
    seqRun (runIf (if a.step = Step.build then true else false) fun _ => ciBuildBlock w) fun _ =>
    runIf (if a.step = Step.package then true else false) fun _ =>
      ([Ev.chdir Dir.rootDir, Ev.runPackage], none)
  else
    nonCiNinja w

/-- Count of `Ev.download` events in the trace of n failed attempts
followed by one more attempt. -/
theorem count_download_flatten (n : Nat) :
    (List.flatten (List.replicate n [Ev.download, Ev.sleep 5]) ++ [Ev.download]).count
      Ev.download = n + 1 := by
  induction n with
  | zero => decide
  | succ k ih => simp_all [List.replicate_succ, List.count_cons, List.count_append]

/-- C1: whenever the child of the timeout-bounded runner has not exited
when the timeout elapses, the runner sends the console-interrupt event
to the process group three times spaced one second apart, then waits up
to ten seconds, kills the process exactly when that wait also fails, and
raises `KeyboardInterrupt` (never `RuntimeError`, never a normal
return); the post-deadline delay is at most 3 x 1s + 10s = 13s. -/
theorem timeout_runner_escalates_and_cancels (v : Bool) (p : ChildProc) (t : Nat)
    (hv : v = true) (h : p.exitsWithinTimeout = false) :
    run_build_process_timeout v p t =
      ([ProcEv.feedScript, ProcEv.waitChild t,
        ProcEv.ctrlEvent, ProcEv.procSleep 1, ProcEv.ctrlEvent, ProcEv.procSleep 1,
        ProcEv.ctrlEvent, ProcEv.procSleep 1, ProcEv.waitChild 10] ++
        (if p.exitsAfterInterrupt then [] else [ProcEv.kill]),
       Except.error PyExc.keyboardInterrupt) ∧
    (run_build_process_timeout v p t).1.count ProcEv.ctrlEvent = 3 ∧
    (((run_build_process_timeout v p t).1.drop 2).map ProcEv.delay).sum ≤ 13 ∧
    (∀ u, (run_build_process_timeout v p t).2 ≠ Except.ok u) ∧
    ∀ msg, (run_build_process_timeout v p t).2 ≠ Except.error (PyExc.runtimeError msg) := by
  subst hv
  have heq : run_build_process_timeout true p t =
      ([ProcEv.feedScript, ProcEv.waitChild t,
        ProcEv.ctrlEvent, ProcEv.procSleep 1, ProcEv.ctrlEvent, ProcEv.procSleep 1,
        ProcEv.ctrlEvent, ProcEv.procSleep 1, ProcEv.waitChild 10] ++
        (if p.exitsAfterInterrupt then [] else [ProcEv.kill]),
       Except.error PyExc.keyboardInterrupt) := by
    simp [run_build_process_timeout, h, interruptSignals]
  refine ⟨heq, ?_, ?_, ?_, ?_⟩ <;> rw [heq] <;> cases p.exitsAfterInterrupt <;>
    simp [List.count_cons, List.count_append, ProcEv.delay]

/-- Witness for C1 at a concrete stubborn process. -/
theorem timeout_runner_escalates_and_cancels_witness :
    true = true ∧ ChildProc.exitsWithinTimeout ⟨false, 0, false⟩ = false ∧
    run_build_process_timeout true ⟨false, 0, false⟩ 7 =
      ([ProcEv.feedScript, ProcEv.waitChild 7,
        ProcEv.ctrlEvent, ProcEv.procSleep 1, ProcEv.ctrlEvent, ProcEv.procSleep 1,
        ProcEv.ctrlEvent, ProcEv.procSleep 1, ProcEv.waitChild 10, ProcEv.kill],
       Except.error PyExc.keyboardInterrupt) :=
  ⟨rfl, rfl, by
    have h := (timeout_runner_escalates_and_cancels true ⟨false, 0, false⟩ 7 rfl rfl).1
    simpa using h⟩

/-- C3: an operation that fails `n < 5` times with exceptions of the
retryable kind and then succeeds makes the retry wrapper return success
(`True`), with exactly `n + 1` invocations of the operation and a
5-second sleep after each of the `n` failed attempts, strictly
interleaved in sequence. -/
theorem retry_succeeds_after_n_failures (m : PyExc → Bool) (f : Nat → Except PyExc Unit)
    (e : Nat → PyExc) (n : Nat) (hn : n < 5)
    (hfail : ∀ k, k < n → f k = Except.error (e k))
    (hmatch : ∀ k, k < n → m (e k) = true)
    (hok : f n = Except.ok ()) :
    retry_on_fail m (fun k => ([Ev.download], f k)) =
      (List.flatten (List.replicate n [Ev.download, Ev.sleep 5]) ++ [Ev.download],
       Except.ok true) ∧
    (retry_on_fail m (fun k => ([Ev.download], f k))).1.count Ev.download = n + 1 := by
  have heq : retry_on_fail m (fun k => ([Ev.download], f k)) =
      (List.flatten (List.replicate n [Ev.download, Ev.sleep 5]) ++ [Ev.download],
       Except.ok true) := by
    interval_cases n
    · simp [retry_on_fail, retry_on_fail_go, hok]
    · simp [retry_on_fail, retry_on_fail_go, hok, hfail 0 (by omega), hmatch 0 (by omega)]
    · simp [retry_on_fail, retry_on_fail_go, hok, hfail 0 (by omega), hfail 1 (by omega),
        hmatch 0 (by omega), hmatch 1 (by omega)]
    · simp [retry_on_fail, retry_on_fail_go, hok, hfail 0 (by omega), hfail 1 (by omega),
        hfail 2 (by omega), hmatch 0 (by omega), hmatch 1 (by omega), hmatch 2 (by omega)]
    · simp [retry_on_fail, retry_on_fail_go, hok, hfail 0 (by omega), hfail 1 (by omega),
        hfail 2 (by omega), hfail 3 (by omega), hmatch 0 (by omega), hmatch 1 (by omega),
        hmatch 2 (by omega), hmatch 3 (by omega)]
  exact ⟨heq, by rw [heq]; exact count_download_flatten n⟩

/-- Witness for C3 with two failures and then success. -/
theorem retry_succeeds_after_n_failures_witness :
    retry_on_fail isCalledProcessError
        (fun k => ([Ev.download],
          if k < 2 then Except.error (PyExc.calledProcessError 3) else Except.ok ())) =
      ([Ev.download, Ev.sleep 5, Ev.download, Ev.sleep 5, Ev.download], Except.ok true) := by
  have h := (retry_succeeds_after_n_failures isCalledProcessError
    (fun k => if k < 2 then Except.error (PyExc.calledProcessError 3) else Except.ok ())
    (fun _ => PyExc.calledProcessError 3) 2 (by omega)
    (by intro k hk; simp [hk]) (by intro k hk; simp [isCalledProcessError])
    (by simp)).1
  simpa using h

/-- CI invocation selecting the Build step. -/
def ciBuildArgs : Args :=
  { ci := true, x86 := false, disable_ssl_verification := false,
    step := Step.build, force := false, skip_domsub := false }

/-- World in which every marker exists, every collaborator succeeds, and
ninja exits with returncode 1. -/
def failingNinjaWorld : World :=
  { fs := ⟨true, true, true⟩, gnFlagsText := "", windowsFlagsText := "",
    retrieveOutcome := fun _ => Except.ok (), checkOutcome := Except.ok (),
    unpackOutcome := Except.ok (), pruneUnremovable := false,
    patchesOutcome := Except.ok (), domsubOutcome := Except.ok (),
    pgoOutcome := Except.ok (), vcvarsFound := true,
    gnBootstrapReturncode := 0, gnGenReturncode := 0, ninjaReturncode := 1 }

/-- C2 (code bug): in the CI Build step of build.py, a ninja invocation
that runs to completion with a failure code raises
`subprocess.CalledProcessError` (from `subprocess.run(check=True)` in
`_run_build_process`), which the `except RuntimeError: exit(123)`
handler does not catch, so the run does NOT exit with the reserved
tool-failure code 123; it dies on an uncaught exception. In
build_llvm.py, whose runner signals tool failure as `RuntimeError` and
cancellation as `KeyboardInterrupt`, the translation to 123 and 124 does
hold. -/
theorem ci_build_tool_failure_not_translated :
    (mainRun ciBuildArgs failingNinjaWorld).2 =
      some (Term.raised (PyExc.calledProcessError 1)) ∧
    (mainRun ciBuildArgs failingNinjaWorld).2 ≠ some (Term.exited 123) ∧
    (build_llvm_run true ⟨true, 1, true⟩).2 = some (Term.exited 123) ∧
    (build_llvm_run true ⟨false, 0, true⟩).2 = some (Term.exited 124) ∧
    (build_llvm_run true ⟨false, 0, false⟩).2 = some (Term.exited 124) := by
  refine ⟨?_, ?_, ?_, ?_, ?_⟩ <;> decide

/-- Events of the continuation stay in the combined trace when the first
piece did not terminate the process. -/
theorem seqRun_mem_right (e : Ev) (r : List Ev × Option Term)
    (next : Unit → List Ev × Option Term) (hr : r.2 = none) (h : e ∈ (next ()).1) :
    e ∈ (seqRun r next).1 := by
  simp [seqRun, hr, h]

/-- Events of the first piece of a sequence stay in the combined trace. -/
theorem seqRun_mem_left (e : Ev) (r : List Ev × Option Term)
    (next : Unit → List Ev × Option Term) (h : e ∈ r.1) : e ∈ (seqRun r next).1 := by
  rcases hr : r.2 with _ | t <;> simp [seqRun, hr, h]

/-- The setup-environment body always begins with the creation of the
source-tree directory. -/
theorem setupEnvironmentBody_head (a : Args) (w : World) :
    ∃ tl r, setupEnvironmentBody a w = (Ev.mkdirSourceTree :: tl, r) := by
  simp only [setupEnvironmentBody]
  repeat' split
  all_goals exact ⟨_, _, rfl⟩

/-- The gn-bootstrap body always begins with the bootstrap invocation. -/
theorem bootstrapGnBlock_head (w : World) :
    ∃ tl r, bootstrapGnBlock w = (Ev.runGnBootstrap :: tl, r) := by
  simp only [bootstrapGnBlock]
  repeat' split
  all_goals exact ⟨_, _, rfl⟩

/-- C5: in CI mode, each marker-gated step skips its body entirely when
its completion marker exists and `force` is false, and executes the body
even though the marker exists when `force` is true (markers: BUILD.gn
for SetupEnvironment, out/Default for CreateArgsGn, out\Default\gn.exe
for BootstrapGn; body starts witnessed by its first side effect). -/
theorem ci_marker_gating (a : Args) (w : World) (hci : a.ci = true) :
    ((a.step = Step.setupEnvironment → w.fs.buildGnExists = true → a.force = false →
        Ev.mkdirSourceTree ∉ (mainRun a w).1) ∧
     (a.step = Step.setupEnvironment → w.fs.buildGnExists = true → a.force = true →
        Ev.mkdirSourceTree ∈ (mainRun a w).1)) ∧
    ((a.step = Step.createArgsGn → w.fs.outDefaultExists = true → a.force = false →
        Ev.mkdirOutDefault ∉ (mainRun a w).1) ∧
     (a.step = Step.createArgsGn → w.fs.outDefaultExists = true → a.force = true →
        Ev.mkdirOutDefault ∈ (mainRun a w).1)) ∧
    ((a.step = Step.bootstrapGn → w.fs.gnExeExists = true → a.force = false →
        Ev.runGnBootstrap ∉ (mainRun a w).1) ∧
     (a.step = Step.bootstrapGn → w.fs.gnExeExists = true → a.force = true →
        Ev.runGnBootstrap ∈ (mainRun a w).1)) := by
  refine ⟨⟨?_, ?_⟩, ⟨?_, ?_⟩, ⟨?_, ?_⟩⟩ <;> intro hstep hmark hforce
  · simp [mainRun, setupGate, pgoGate, createArgsGate, bootstrapGate, runIf, seqRun,
      hci, hstep, hmark, hforce]
  · simp only [mainRun, setupGate, pgoGate, createArgsGate, bootstrapGate, runIf,
      hci, hstep, hmark, hforce]
    simp only [reduceIte, Bool.not_true, Bool.false_or, Bool.true_and, Bool.or_true]
    obtain ⟨tl, r, hb⟩ := setupEnvironmentBody_head a w
    exact seqRun_mem_left _ _ _ (by rw [hb]; simp)
  · simp [mainRun, setupGate, pgoGate, createArgsGate, bootstrapGate, runIf, seqRun,
      hci, hstep, hmark, hforce]
  · simp [mainRun, setupGate, pgoGate, createArgsGate, bootstrapGate, runIf, seqRun,
      hci, hstep, hmark, hforce, createArgsGnBody, pathMkdir]
  · simp [mainRun, setupGate, pgoGate, createArgsGate, bootstrapGate, runIf, seqRun,
      hci, hstep, hmark, hforce]
  · simp only [mainRun, setupGate, pgoGate, createArgsGate, bootstrapGate, runIf,
      hci, hstep, hmark, hforce]
    simp only [reduceIte, Bool.not_true, Bool.false_or, Bool.true_and, Bool.or_true,
      Bool.false_and]
    obtain ⟨tl, r, hb⟩ := bootstrapGnBlock_head w
    refine seqRun_mem_right _ _ _ rfl ?_
    refine seqRun_mem_right _ _ _ rfl ?_
    refine seqRun_mem_right _ _ _ rfl ?_
    refine seqRun_mem_right _ _ _ rfl ?_
    refine seqRun_mem_left _ _ _ ?_
    rw [hb]; simp

/-- World in which every completion marker exists and every collaborator
succeeds. -/
def markersWorld : World :=
  { fs := ⟨true, true, true⟩, gnFlagsText := "g", windowsFlagsText := "w",
    retrieveOutcome := fun _ => Except.ok (), checkOutcome := Except.ok (),
    unpackOutcome := Except.ok (), pruneUnremovable := false,
    patchesOutcome := Except.ok (), domsubOutcome := Except.ok (),
    pgoOutcome := Except.ok (), vcvarsFound := true,
    gnBootstrapReturncode := 0, gnGenReturncode := 0, ninjaReturncode := 0 }

/-- Witness for C5 at concrete CI invocations of the three gated steps. -/
theorem ci_marker_gating_witness :
    Ev.mkdirSourceTree ∉
      (mainRun ⟨true, false, false, Step.setupEnvironment, false, false⟩ markersWorld).1 ∧
    Ev.mkdirSourceTree ∈
      (mainRun ⟨true, false, false, Step.setupEnvironment, true, false⟩ markersWorld).1 ∧
    Ev.mkdirOutDefault ∉
      (mainRun ⟨true, false, false, Step.createArgsGn, false, false⟩ markersWorld).1 ∧
    Ev.mkdirOutDefault ∈
      (mainRun ⟨true, false, false, Step.createArgsGn, true, false⟩ markersWorld).1 ∧
    Ev.runGnBootstrap ∉
      (mainRun ⟨true, false, false, Step.bootstrapGn, false, false⟩ markersWorld).1 ∧
    Ev.runGnBootstrap ∈
      (mainRun ⟨true, false, false, Step.bootstrapGn, true, false⟩ markersWorld).1 :=
  ⟨(ci_marker_gating ⟨true, false, false, Step.setupEnvironment, false, false⟩
      markersWorld rfl).1.1 rfl rfl rfl,
   (ci_marker_gating ⟨true, false, false, Step.setupEnvironment, true, false⟩
      markersWorld rfl).1.2 rfl rfl rfl,
   (ci_marker_gating ⟨true, false, false, Step.createArgsGn, false, false⟩
      markersWorld rfl).2.1.1 rfl rfl rfl,
   (ci_marker_gating ⟨true, false, false, Step.createArgsGn, true, false⟩
      markersWorld rfl).2.1.2 rfl rfl rfl,
   (ci_marker_gating ⟨true, false, false, Step.bootstrapGn, false, false⟩
      markersWorld rfl).2.2.1 rfl rfl rfl,
   (ci_marker_gating ⟨true, false, false, Step.bootstrapGn, true, false⟩
      markersWorld rfl).2.2.2 rfl rfl rfl⟩

/-- C7: a CI run selecting CreateArgsGn with the 32-bit architecture and
no existing out/Default writes args.gn with exactly the base flag file,
a newline, and the windows flag file with every `x64` occurrence
replaced by `x86`, then falls off the end of `main` (exit code 0); the
only other side effect is the unconditional chdir into the source
tree. -/
theorem ci_create_args_gn_x86 (a : Args) (w : World)
    (hci : a.ci = true) (hstep : a.step = Step.createArgsGn)
    (hx : a.x86 = true) (habs : w.fs.outDefaultExists = false) :
    mainRun a w =
      ([Ev.mkdirOutDefault,
        Ev.writeArgsGn (w.gnFlagsText ++ "\n" ++ pyReplace w.windowsFlagsText "x64" "x86"),
        Ev.chdir Dir.sourceTree], none) := by
  simp [mainRun, setupGate, pgoGate, createArgsGate, bootstrapGate, runIf, seqRun,
    hci, hstep, hx, habs, createArgsGnBody, pathMkdir, argsGnContent]

/-- World for the 32-bit args.gn scenario, with no markers present. -/
def x86World : World :=
  { fs := ⟨false, false, false⟩, gnFlagsText := "flags",
    windowsFlagsText := "cpu = x64 bits x64",
    retrieveOutcome := fun _ => Except.ok (), checkOutcome := Except.ok (),
    unpackOutcome := Except.ok (), pruneUnremovable := false,
    patchesOutcome := Except.ok (), domsubOutcome := Except.ok (),
    pgoOutcome := Except.ok (), vcvarsFound := true,
    gnBootstrapReturncode := 0, gnGenReturncode := 0, ninjaReturncode := 0 }

/-- Witness for C7: both occurrences of `x64` are rewritten to `x86`. -/
theorem ci_create_args_gn_x86_witness :
    mainRun ⟨true, true, false, Step.createArgsGn, false, false⟩ x86World =
      ([Ev.mkdirOutDefault, Ev.writeArgsGn "flags\ncpu = x86 bits x86",
        Ev.chdir Dir.sourceTree], none) := by
  have h := ci_create_args_gn_x86 ⟨true, true, false, Step.createArgsGn, false, false⟩
    x86World rfl rfl rfl rfl
  rw [h]
  decide

/-- C10: whenever the CreateArgsGn body starts while out/Default already
exists, the `mkdir(parents=True)` call (no `exist_ok`) raises
`FileExistsError`, so the body terminates before args.gn is written; in
particular a forced CI re-run of the step dies with that uncaught
exception and writes nothing. -/
theorem create_args_gn_mkdir_guard (a : Args) (w : World)
    (hexists : w.fs.outDefaultExists = true) :
    pathMkdir w.fs.outDefaultExists true false = Except.error PyExc.fileExistsError ∧
    createArgsGnBody a w = ([Ev.mkdirOutDefault], some (Term.raised PyExc.fileExistsError)) ∧
    (∀ c, Ev.writeArgsGn c ∉ (createArgsGnBody a w).1) ∧
    (a.ci = true → a.step = Step.createArgsGn → a.force = true →
      mainRun a w = ([Ev.mkdirOutDefault], some (Term.raised PyExc.fileExistsError))) := by
  have h1 : pathMkdir w.fs.outDefaultExists true false = Except.error PyExc.fileExistsError := by
    simp [pathMkdir, hexists]
  have h2 : createArgsGnBody a w =
      ([Ev.mkdirOutDefault], some (Term.raised PyExc.fileExistsError)) := by
    simp [createArgsGnBody, h1]
  refine ⟨h1, h2, by simp [h2], ?_⟩
  intro hci hstep hforce
  simp [mainRun, setupGate, pgoGate, createArgsGate, bootstrapGate, runIf, seqRun,
    hci, hstep, hforce, hexists, h2]

/-- Witness for C10: forced CI re-run of CreateArgsGn over an existing
out/Default. -/
theorem create_args_gn_mkdir_guard_witness :
    mainRun ⟨true, false, false, Step.createArgsGn, true, false⟩ markersWorld =
      ([Ev.mkdirOutDefault], some (Term.raised PyExc.fileExistsError)) :=
  (create_args_gn_mkdir_guard ⟨true, false, false, Step.createArgsGn, true, false⟩
    markersWorld rfl).2.2.2 rfl rfl rfl

/-- Step whose body a given event marks the start of (the first side
effect of each of the six step bodies); other events belong to no step
boundary. -/
def stepOf : Ev → Option Step
  | Ev.mkdirSourceTree => some Step.setupEnvironment
  | Ev.pgoDownload => some Step.downloadPgoProfiles
  | Ev.mkdirOutDefault => some Step.createArgsGn
  | Ev.runGnBootstrap => some Step.bootstrapGn
  | Ev.runNinja => some Step.build
  | Ev.runPackage => some Step.package
  | _ => none

/-- World with no markers present and every collaborator succeeding. -/
def allOkWorld : World :=
  { fs := ⟨false, false, false⟩, gnFlagsText := "g", windowsFlagsText := "w",
    retrieveOutcome := fun _ => Except.ok (), checkOutcome := Except.ok (),
    unpackOutcome := Except.ok (), pruneUnremovable := false,
    patchesOutcome := Except.ok (), domsubOutcome := Except.ok (),
    pgoOutcome := Except.ok (), vcvarsFound := true,
    gnBootstrapReturncode := 0, gnGenReturncode := 0, ninjaReturncode := 0 }

/-- Counterexample to C6 as stated: in a concrete non-CI invocation in
which every collaborator succeeds, the Package step body never executes
(build.py only invokes package.py inside the `if args.ci:` branch), so
not all six steps run. -/
theorem nonci_package_does_not_run_cx :
    (Args.ci ⟨false, false, false, Step.setupEnvironment, false, false⟩ = false) ∧
    Ev.runPackage ∉
      (mainRun ⟨false, false, false, Step.setupEnvironment, false, false⟩ allOkWorld).1 := by
  exact ⟨rfl, by decide⟩

/-- C6 as amended: in every non-CI invocation in which no step fails,
exactly the first five steps (SetupEnvironment, DownloadPgoProfiles,
CreateArgsGn, BootstrapGn, Build) execute, in declared order, regardless
of the step argument, the force flag and the markers other than
out/Default (which must be absent for CreateArgsGn to survive its
mkdir); the Package step is never executed in non-CI mode. -/
theorem nonci_runs_first_five_steps (a : Args) (w : World)
    (hci : a.ci = false)
    (h1 : w.retrieveOutcome 0 = Except.ok ())
    (h2 : w.checkOutcome = Except.ok ())
    (h3 : w.unpackOutcome = Except.ok ())
    (h4 : w.pruneUnremovable = false)
    (h5 : w.patchesOutcome = Except.ok ())
    (h6 : w.domsubOutcome = Except.ok ())
    (h7 : w.pgoOutcome = Except.ok ())
    (h8 : w.fs.outDefaultExists = false)
    (h9 : w.vcvarsFound = true)
    (h10 : w.gnBootstrapReturncode = 0)
    (h11 : w.gnGenReturncode = 0) :
    (mainRun a w).1.filterMap stepOf =
      [Step.setupEnvironment, Step.downloadPgoProfiles, Step.createArgsGn,
       Step.bootstrapGn, Step.build] ∧
    Ev.runPackage ∉ (mainRun a w).1 := by
  cases hsd : a.skip_domsub <;>
    constructor <;>
    simp [mainRun, setupGate, pgoGate, createArgsGate, bootstrapGate, runIf, seqRun,
      hci, setupEnvironmentBody, setupTail, retry_on_fail, retry_on_fail_go, h1, h2, h3,
      h4, h5, h6, hsd, downloadPgoBody, h7, createArgsGnBody, pathMkdir, h8, bootstrapGnBlock,
      run_build_process, h9, h10, h11, nonCiNinja, stepOf]

/-- Witness for C6's amended statement at a concrete non-CI world. -/
theorem nonci_runs_first_five_steps_witness :
    (mainRun ⟨false, true, false, Step.package, true, false⟩ allOkWorld).1.filterMap stepOf =
      [Step.setupEnvironment, Step.downloadPgoProfiles, Step.createArgsGn,
       Step.bootstrapGn, Step.build] ∧
    Ev.runPackage ∉ (mainRun ⟨false, true, false, Step.package, true, false⟩ allOkWorld).1 :=
  nonci_runs_first_five_steps ⟨false, true, false, Step.package, true, false⟩ allOkWorld
    rfl rfl rfl rfl rfl rfl rfl rfl rfl rfl rfl rfl

/-- The retry loop makes at most as many calls as it has remaining
attempt numbers. -/
theorem retry_go_download_count_le (m : PyExc → Bool) (f : Nat → Except PyExc Unit) :
    ∀ (l : List Nat) (c : Nat),
      (retry_on_fail_go m (fun k => ([Ev.download], f k)) l c).1.count Ev.download ≤
        l.length := by
  intro l
  induction l with
  | nil => intro c; simp [retry_on_fail_go]
  | cons a rest ih =>
    intro c
    rcases hf : f c with err | u
    · by_cases hm : m err = true
      · rcases hr : retry_on_fail_go m (fun k => ([Ev.download], f k)) rest (c + 1)
          with ⟨evs, res⟩
        have hc := ih (c + 1)
        rw [hr] at hc
        simp at hc
        simp only [retry_on_fail_go, hf, hm, hr, if_true]
        simp [List.count_cons, List.count_append]
        omega
      · simp [retry_on_fail_go, hf, hm, List.count_cons]
    · simp [retry_on_fail_go, hf, List.count_cons]

/-- Every event emitted by the retry loop around the download callback
is either a download or the 5-second backoff sleep. -/
theorem retry_go_events_inventory (m : PyExc → Bool) (f : Nat → Except PyExc Unit) :
    ∀ (l : List Nat) (c : Nat) (e : Ev),
      e ∈ (retry_on_fail_go m (fun k => ([Ev.download], f k)) l c).1 →
      e = Ev.download ∨ e = Ev.sleep 5 := by
  intro l
  induction l with
  | nil => intro c e he; simp [retry_on_fail_go] at he
  | cons a rest ih =>
    intro c e he
    rcases hf : f c with err | u
    · by_cases hm : m err = true
      · rcases hr : retry_on_fail_go m (fun k => ([Ev.download], f k)) rest (c + 1)
          with ⟨evs, res⟩
        rw [retry_on_fail_go] at he
        simp only [hf, hm, hr, if_true] at he
        simp at he
        rcases he with he | he | he
        · exact Or.inl he
        · exact Or.inr he
        · exact ih (c + 1) e (by rw [hr]; exact he)
      · simp [retry_on_fail_go, hf, hm] at he
        exact Or.inl he
    · simp [retry_on_fail_go, hf] at he
      exact Or.inl he

/-- The trace of five matching failures: five downloads, each followed
by the backoff sleep. -/
theorem retry_all_attempts_fail (m : PyExc → Bool) (f : Nat → Except PyExc Unit)
    (e : Nat → PyExc)
    (hfail : ∀ k, k < 5 → f k = Except.error (e k))
    (hmatch : ∀ k, k < 5 → m (e k) = true) :
    retry_on_fail m (fun k => ([Ev.download], f k)) =
      (List.flatten (List.replicate 5 [Ev.download, Ev.sleep 5]), Except.ok false) := by
  simp [retry_on_fail, retry_on_fail_go,
    hfail 0 (by omega), hfail 1 (by omega), hfail 2 (by omega), hfail 3 (by omega),
    hfail 4 (by omega), hmatch 0 (by omega), hmatch 1 (by omega), hmatch 2 (by omega),
    hmatch 3 (by omega), hmatch 4 (by omega)]

/-- C4: a non-matching exception propagates out of the retry wrapper at
once with no further attempt; the operation is never invoked more than
five times; and when all five attempts fail with matching errors the
wrapper returns failure and the download step of `main` reports the
exhaustion and terminates the run with `exit(1)` before any later step
event. -/
theorem retry_nonmatching_bound_exhaustion :
    (∀ (m : PyExc → Bool) (f : Nat → Except PyExc Unit) (e : Nat → PyExc) (j : Nat)
       (ebad : PyExc), j < 5 →
       (∀ k, k < j → f k = Except.error (e k)) →
       (∀ k, k < j → m (e k) = true) →
       f j = Except.error ebad → m ebad = false →
       retry_on_fail m (fun k => ([Ev.download], f k)) =
         (List.flatten (List.replicate j [Ev.download, Ev.sleep 5]) ++ [Ev.download],
          Except.error ebad)) ∧
    (∀ (m : PyExc → Bool) (f : Nat → Except PyExc Unit),
       (retry_on_fail m (fun k => ([Ev.download], f k))).1.count Ev.download ≤ 5) ∧
    (∀ (a : Args) (w : World) (e : Nat → PyExc),
       setupGate a w.fs = true →
       (∀ k, k < 5 → w.retrieveOutcome k = Except.error (e k)) →
       (∀ k, k < 5 → isCalledProcessError (e k) = true) →
       mainRun a w =
         ([Ev.mkdirSourceTree, Ev.mkdirDownloadsCache, Ev.makeTmpPaths] ++
           List.flatten (List.replicate 5 [Ev.download, Ev.sleep 5]) ++
           [Ev.reportError "All download retry attempts exceeded, exiting"],
          some (Term.exited 1)) ∧
         Ev.checkDownloads ∉ (mainRun a w).1 ∧ Ev.unpack ∉ (mainRun a w).1 ∧
         Ev.pgoDownload ∉ (mainRun a w).1 ∧ Ev.runNinja ∉ (mainRun a w).1) := by
  refine ⟨?_, ?_, ?_⟩
  · intro m f e j ebad hj hfail hmatch hbad hnm
    interval_cases j
    · simp [retry_on_fail, retry_on_fail_go, hbad, hnm]
    · simp [retry_on_fail, retry_on_fail_go, hbad, hnm, hfail 0 (by omega),
        hmatch 0 (by omega)]
    · simp [retry_on_fail, retry_on_fail_go, hbad, hnm, hfail 0 (by omega),
        hfail 1 (by omega), hmatch 0 (by omega), hmatch 1 (by omega)]
    · simp [retry_on_fail, retry_on_fail_go, hbad, hnm, hfail 0 (by omega),
        hfail 1 (by omega), hfail 2 (by omega), hmatch 0 (by omega),
        hmatch 1 (by omega), hmatch 2 (by omega)]
    · simp [retry_on_fail, retry_on_fail_go, hbad, hnm, hfail 0 (by omega),
        hfail 1 (by omega), hfail 2 (by omega), hfail 3 (by omega),
        hmatch 0 (by omega), hmatch 1 (by omega), hmatch 2 (by omega),
        hmatch 3 (by omega)]
  · intro m f
    exact retry_go_download_count_le m f [1, 2, 3, 4, 5] 0
  · intro a w e hgate hfail hmatch
    have hr := retry_all_attempts_fail isCalledProcessError w.retrieveOutcome e hfail hmatch
    have hbody : setupEnvironmentBody a w =
        ([Ev.mkdirSourceTree, Ev.mkdirDownloadsCache, Ev.makeTmpPaths] ++
          List.flatten (List.replicate 5 [Ev.download, Ev.sleep 5]) ++
          [Ev.reportError "All download retry attempts exceeded, exiting"],
         some (Term.exited 1)) := by
      simp [setupEnvironmentBody, hr]
    have hm : mainRun a w =
        ([Ev.mkdirSourceTree, Ev.mkdirDownloadsCache, Ev.makeTmpPaths] ++
          List.flatten (List.replicate 5 [Ev.download, Ev.sleep 5]) ++
          [Ev.reportError "All download retry attempts exceeded, exiting"],
         some (Term.exited 1)) := by
      simp [mainRun, runIf, hgate, seqRun, hbody]
    refine ⟨hm, ?_, ?_, ?_, ?_⟩ <;> rw [hm] <;> decide

/-- Witness for C4: an always-failing matching download, plus a run of
`main` over it, and a non-matching failure on the very first attempt. -/
theorem retry_nonmatching_bound_exhaustion_witness :
    retry_on_fail isCalledProcessError
        (fun _ => ([Ev.download], Except.error PyExc.hashMismatchError)) =
      ([Ev.download], Except.error PyExc.hashMismatchError) ∧
    (retry_on_fail isCalledProcessError
        (fun _ => ([Ev.download], Except.error (PyExc.calledProcessError 2)))).1.count
        Ev.download ≤ 5 ∧
    mainRun ⟨false, false, false, Step.setupEnvironment, false, false⟩
        { allOkWorld with retrieveOutcome := fun _ => Except.error (PyExc.calledProcessError 2) } =
      ([Ev.mkdirSourceTree, Ev.mkdirDownloadsCache, Ev.makeTmpPaths] ++
        List.flatten (List.replicate 5 [Ev.download, Ev.sleep 5]) ++
        [Ev.reportError "All download retry attempts exceeded, exiting"],
       some (Term.exited 1)) := by
  refine ⟨?_, ?_, ?_⟩
  · have h := retry_nonmatching_bound_exhaustion.1 isCalledProcessError
      (fun _ => Except.error PyExc.hashMismatchError) (fun _ => PyExc.hashMismatchError)
      0 PyExc.hashMismatchError (by omega) (by intro k hk; omega)
      (by intro k hk; omega) rfl rfl
    simpa using h
  · exact retry_nonmatching_bound_exhaustion.2.1 isCalledProcessError
      (fun _ => Except.error (PyExc.calledProcessError 2))
  · exact (retry_nonmatching_bound_exhaustion.2.2
      ⟨false, false, false, Step.setupEnvironment, false, false⟩
      { allOkWorld with retrieveOutcome := fun _ => Except.error (PyExc.calledProcessError 2) }
      (fun _ => PyExc.calledProcessError 2) rfl (fun _ _ => rfl) (fun _ _ => rfl)).1

/-- C8: whenever the download phase succeeds and the integrity check
raises `HashMismatchError`, `main` reports the mismatch and terminates
with `exit(1)`; no unpack event ever happens and the integrity check is
invoked exactly once (no retry wraps it). -/
theorem hash_mismatch_aborts_before_unpack (a : Args) (w : World) (revs : List Ev)
    (hgate : setupGate a w.fs = true)
    (hretry : retry_on_fail isCalledProcessError
        (fun n => ([Ev.download], w.retrieveOutcome n)) = (revs, Except.ok true))
    (hcheck : w.checkOutcome = Except.error PyExc.hashMismatchError) :
    mainRun a w =
      ([Ev.mkdirSourceTree, Ev.mkdirDownloadsCache, Ev.makeTmpPaths] ++ revs ++
        [Ev.checkDownloads, Ev.reportError "File checksum does not match"],
       some (Term.exited 1)) ∧
    Ev.unpack ∉ (mainRun a w).1 ∧
    (mainRun a w).1.count Ev.checkDownloads = 1 := by
  have hinv : ∀ e, e ∈ revs → e = Ev.download ∨ e = Ev.sleep 5 := by
    intro e he
    refine retry_go_events_inventory isCalledProcessError w.retrieveOutcome
      [1, 2, 3, 4, 5] 0 e ?_
    have : (retry_on_fail_go isCalledProcessError
        (fun n => ([Ev.download], w.retrieveOutcome n)) [1, 2, 3, 4, 5] 0).1 = revs := by
      have := congrArg Prod.fst hretry
      simpa [retry_on_fail] using this
    rw [this]
    exact he
  have hbody : setupEnvironmentBody a w =
      ([Ev.mkdirSourceTree, Ev.mkdirDownloadsCache, Ev.makeTmpPaths] ++ revs ++
        [Ev.checkDownloads, Ev.reportError "File checksum does not match"],
       some (Term.exited 1)) := by
    simp [setupEnvironmentBody, setupTail, hretry, hcheck]
  have hm : mainRun a w =
      ([Ev.mkdirSourceTree, Ev.mkdirDownloadsCache, Ev.makeTmpPaths] ++ revs ++
        [Ev.checkDownloads, Ev.reportError "File checksum does not match"],
       some (Term.exited 1)) := by
    simp [mainRun, runIf, hgate, seqRun, hbody]
  refine ⟨hm, ?_, ?_⟩
  · rw [hm]
    intro hmem
    simp at hmem
    rcases hinv Ev.unpack hmem with h | h <;> simp at h
  · rw [hm]
    have hz : revs.count Ev.checkDownloads = 0 := by
      rw [List.count_eq_zero]
      intro hmem
      rcases hinv Ev.checkDownloads hmem with h | h <;> simp at h
    simp [List.count_append, List.count_cons, hz]

/-- Witness for C8: first download attempt succeeds, checksum fails. -/
theorem hash_mismatch_aborts_before_unpack_witness :
    mainRun ⟨false, false, false, Step.setupEnvironment, false, false⟩
        { allOkWorld with checkOutcome := Except.error PyExc.hashMismatchError } =
      ([Ev.mkdirSourceTree, Ev.mkdirDownloadsCache, Ev.makeTmpPaths] ++ [Ev.download] ++
        [Ev.checkDownloads, Ev.reportError "File checksum does not match"],
       some (Term.exited 1)) :=
  (hash_mismatch_aborts_before_unpack
    ⟨false, false, false, Step.setupEnvironment, false, false⟩
    { allOkWorld with checkOutcome := Except.error PyExc.hashMismatchError }
    [Ev.download] rfl rfl rfl).1

/-- Whether the event is a change of working directory. -/
def Ev.isChdir : Ev → Bool
  | Ev.chdir _ => true
  | _ => false

/-- Whether the event is one of the build-tool invocations that run from
inside the source tree (gn bootstrap, gn gen, ninja). -/
def Ev.isToolInvocation : Ev → Bool
  | Ev.runGnBootstrap => true
  | Ev.runGnGen => true
  | Ev.runNinja => true
  | _ => false

/-- Whether the event belongs to one of the step bodies that run before
the `os.chdir(source_tree)` of build.py:404 (SetupEnvironment,
DownloadPgoProfiles, CreateArgsGn). -/
def Ev.isPreChdirStep : Ev → Bool
  | Ev.mkdirSourceTree => true
  | Ev.mkdirDownloadsCache => true
  | Ev.makeTmpPaths => true
  | Ev.download => true
  | Ev.sleep _ => true
  | Ev.checkDownloads => true
  | Ev.reportError _ => true
  | Ev.unpack => true
  | Ev.prune => true
  | Ev.applyPatches => true
  | Ev.domainSubstitution => true
  | Ev.pgoDownload => true
  | Ev.mkdirOutDefault => true
  | Ev.writeArgsGn _ => true
  | _ => false

/-- The working directory after one event. -/
def chdirTarget (d : Dir) : Ev → Dir
  | Ev.chdir d2 => d2
  | _ => d

/-- The working directory after a list of events. -/
def cwdAfter (d : Dir) : List Ev → Dir
  | [] => d
  | e :: rest => cwdAfter (chdirTarget d e) rest

/-- Each event of the trace paired with the working directory in which
it executes (the directory in which a chdir event is issued, for chdir
events themselves). -/
def eventCwds (d : Dir) : List Ev → List (Dir × Ev)
  | [] => []
  | e :: rest => (d, e) :: eventCwds (chdirTarget d e) rest

/-- The working-directory obligation of a single event: pre-chdir step
bodies run in the launch directory, tool invocations in the source tree,
and the packaging collaborator back in the launch directory. -/
def cwdOk (pr : Dir × Ev) : Prop :=
  (Ev.isPreChdirStep pr.2 = true → pr.1 = Dir.rootDir) ∧
  (Ev.isToolInvocation pr.2 = true → pr.1 = Dir.sourceTree) ∧
  (pr.2 = Ev.runPackage → pr.1 = Dir.rootDir)

/-- The three event kinds are pairwise disjoint and never the package
invocation or a chdir (for the first two). -/
theorem ev_kinds_disjoint (e : Ev) :
    (Ev.isPreChdirStep e = true →
      Ev.isChdir e = false ∧ Ev.isToolInvocation e = false ∧ e ≠ Ev.runPackage) ∧
    (Ev.isToolInvocation e = true → Ev.isChdir e = false ∧ e ≠ Ev.runPackage) := by
  cases e <;> simp [Ev.isPreChdirStep, Ev.isChdir, Ev.isToolInvocation]

/-- Appending traces splits the cwd-annotated trace. -/
theorem eventCwds_append (xs ys : List Ev) :
    ∀ d, eventCwds d (xs ++ ys) = eventCwds d xs ++ eventCwds (cwdAfter d xs) ys := by
  induction xs with
  | nil => intro d; simp [eventCwds, cwdAfter]
  | cons e rest ih => intro d; simp [eventCwds, cwdAfter, ih]

/-- A trace without chdir events leaves the working directory alone. -/
theorem cwdAfter_no_chdir (xs : List Ev) :
    ∀ d, (∀ e ∈ xs, Ev.isChdir e = false) → cwdAfter d xs = d := by
  induction xs with
  | nil => intro d _; rfl
  | cons e rest ih =>
    intro d h
    have he : Ev.isChdir e = false := h e (by simp)
    have ht : chdirTarget d e = d := by
      cases e <;> first | rfl | simp [Ev.isChdir] at he
    rw [cwdAfter, ht]
    exact ih d (fun x hx => h x (by simp [hx]))

/-- A trace without chdir events is annotated with a constant cwd. -/
theorem eventCwds_no_chdir (xs : List Ev) :
    ∀ d, (∀ e ∈ xs, Ev.isChdir e = false) →
      eventCwds d xs = xs.map (fun e => (d, e)) := by
  induction xs with
  | nil => intro d _; rfl
  | cons e rest ih =>
    intro d h
    have he : Ev.isChdir e = false := h e (by simp)
    have ht : chdirTarget d e = d := by
      cases e <;> first | rfl | simp [Ev.isChdir] at he
    rw [eventCwds, ht, ih d (fun x hx => h x (by simp [hx]))]
    simp

/-- A sequenced run either stops with the first piece's events or
concatenates both. -/
theorem seqRun_events_cases (r : List Ev × Option Term)
    (next : Unit → List Ev × Option Term) :
    (seqRun r next).1 = r.1 ∨ (seqRun r next).1 = r.1 ++ (next ()).1 := by
  rcases hr : r.2 with _ | t <;> simp [seqRun, hr]

/-- All events of the post-download setup tail belong to pre-chdir step
bodies. -/
theorem setupTail_pre (a : Args) (w : World) :
    ∀ e ∈ (setupTail a w).1, Ev.isPreChdirStep e = true := by
  simp only [setupTail]
  repeat' split
  all_goals intro e he
  all_goals simp at he
  all_goals rcases he with rfl | rfl | rfl | rfl | rfl <;> rfl

/-- All events of the setup-environment body belong to pre-chdir step
bodies. -/
theorem setupEnvironmentBody_pre (a : Args) (w : World) :
    ∀ e ∈ (setupEnvironmentBody a w).1, Ev.isPreChdirStep e = true := by
  intro e he
  rcases hr : retry_on_fail isCalledProcessError
      (fun n => ([Ev.download], w.retrieveOutcome n)) with ⟨revs, res⟩
  have hr2 := hr
  simp only [retry_on_fail] at hr2
  have hinv : ∀ x ∈ revs, x = Ev.download ∨ x = Ev.sleep 5 := by
    intro x hx
    refine retry_go_events_inventory isCalledProcessError w.retrieveOutcome
      [1, 2, 3, 4, 5] 0 x ?_
    rw [hr2]
    exact hx
  simp only [setupEnvironmentBody, hr] at he
  rcases res with err | b
  · simp at he
    rcases he with rfl | rfl | rfl | hrev
    · rfl
    · rfl
    · rfl
    · rcases hinv e hrev with rfl | rfl <;> rfl
  · cases b
    · simp at he
      rcases he with rfl | rfl | rfl | hrev | rfl
      · rfl
      · rfl
      · rfl
      · rcases hinv e hrev with rfl | rfl <;> rfl
      · rfl
    · simp at he
      rcases he with rfl | rfl | rfl | hrev | htail
      · rfl
      · rfl
      · rfl
      · rcases hinv e hrev with rfl | rfl <;> rfl
      · exact setupTail_pre a w e htail

/-- All events of the PGO block belong to pre-chdir step bodies. -/
theorem downloadPgoBody_pre (w : World) :
    ∀ e ∈ (downloadPgoBody w).1, Ev.isPreChdirStep e = true := by
  intro e he
  simp [downloadPgoBody] at he
  subst he
  rfl

/-- All events of the args.gn block belong to pre-chdir step bodies. -/
theorem createArgsGnBody_pre (a : Args) (w : World) :
    ∀ e ∈ (createArgsGnBody a w).1, Ev.isPreChdirStep e = true := by
  intro e he
  rcases hmk : pathMkdir w.fs.outDefaultExists true false with err | u
  · simp [createArgsGnBody, hmk] at he
    subst he
    rfl
  · simp [createArgsGnBody, hmk] at he
    rcases he with rfl | rfl <;> rfl

/-- All events of the gn-bootstrap block are tool invocations. -/
theorem bootstrapGnBlock_tool (w : World) :
    ∀ e ∈ (bootstrapGnBlock w).1, Ev.isToolInvocation e = true := by
  intro e he
  rcases h1 : run_build_process w.vcvarsFound w.gnBootstrapReturncode with e1 | u1
  · simp [bootstrapGnBlock, h1] at he
    subst he
    rfl
  · rcases h2 : run_build_process w.vcvarsFound w.gnGenReturncode with e2 | u2 <;>
      simp [bootstrapGnBlock, h1, h2] at he <;> rcases he with rfl | rfl <;> rfl

/-- All events of the CI build block are tool invocations. -/
theorem ciBuildBlock_tool (w : World) :
    ∀ e ∈ (ciBuildBlock w).1, Ev.isToolInvocation e = true := by
  intro e he
  simp [ciBuildBlock] at he
  subst he
  rfl

/-- All events of the non-CI ninja tail are tool invocations. -/
theorem nonCiNinja_tool (w : World) :
    ∀ e ∈ (nonCiNinja w).1, Ev.isToolInvocation e = true := by
  intro e he
  simp [nonCiNinja] at he
  subst he
  rfl

/-- A gated block inherits any per-event property of its body. -/
theorem runIf_forall (P : Ev → Prop) (b : Bool) (body : Unit → List Ev × Option Term)
    (h : ∀ e ∈ (body ()).1, P e) : ∀ e ∈ (runIf b body).1, P e := by
  cases b
  · simp [runIf]
  · simpa [runIf] using h

/-- Shape of the events from the gn-bootstrap block onward: tool
invocations, optionally followed by the CI package coda (the chdir back
to the launch directory and the package.py invocation). -/
def TailShape (evs : List Ev) : Prop :=
  ∃ s2 tail, evs = s2 ++ tail ∧ (∀ e ∈ s2, Ev.isToolInvocation e = true) ∧
    (tail = [] ∨ tail = [Ev.chdir Dir.rootDir, Ev.runPackage])

/-- Shape of a full `main` trace: either the run ended among the
pre-chdir blocks, or pre-chdir events are followed by the single chdir
into the source tree and a `TailShape` remainder. -/
def ShapeProp (evs : List Ev) : Prop :=
  (∀ e ∈ evs, Ev.isPreChdirStep e = true) ∨
  (∃ s1 s2 tail, evs = s1 ++ Ev.chdir Dir.sourceTree :: (s2 ++ tail) ∧
    (∀ e ∈ s1, Ev.isPreChdirStep e = true) ∧
    (∀ e ∈ s2, Ev.isToolInvocation e = true) ∧
    (tail = [] ∨ tail = [Ev.chdir Dir.rootDir, Ev.runPackage]))

/-- Prepending a pre-chdir piece preserves the full-trace shape. -/
theorem shape_seq_pre (r : List Ev × Option Term) (next : Unit → List Ev × Option Term)
    (hp : ∀ e ∈ r.1, Ev.isPreChdirStep e = true)
    (hc : ShapeProp ((next ()).1)) : ShapeProp ((seqRun r next).1) := by
  rcases seqRun_events_cases r next with h | h
  · rw [h]
    exact Or.inl hp
  · rw [h]
    rcases hc with hall | ⟨s1, s2, tail, heq, h1, h2, h3⟩
    · refine Or.inl ?_
      intro e he
      rcases List.mem_append.1 he with hh | hh
      · exact hp e hh
      · exact hall e hh
    · refine Or.inr ⟨r.1 ++ s1, s2, tail, ?_, ?_, h2, h3⟩
      · rw [heq, List.append_assoc]
      · intro e he
        rcases List.mem_append.1 he with hh | hh
        · exact hp e hh
        · exact h1 e hh

/-- Prepending a tool-invocation piece preserves the tail shape. -/
theorem tailShape_seq_tool (r : List Ev × Option Term)
    (next : Unit → List Ev × Option Term)
    (hp : ∀ e ∈ r.1, Ev.isToolInvocation e = true)
    (hc : TailShape ((next ()).1)) : TailShape ((seqRun r next).1) := by
  rcases seqRun_events_cases r next with h | h
  · exact ⟨r.1, [], by rw [h]; simp, hp, Or.inl rfl⟩
  · obtain ⟨s2, tail, heq, h2, h3⟩ := hc
    refine ⟨r.1 ++ s2, tail, ?_, ?_, h3⟩
    · rw [h, heq, List.append_assoc]
    · intro e he
      rcases List.mem_append.1 he with hh | hh
      · exact hp e hh
      · exact h2 e hh

/-- The chdir into the source tree followed by a tail-shaped remainder
is a full-trace shape. -/
theorem shape_chdir_tail (next : Unit → List Ev × Option Term)
    (hc : TailShape ((next ()).1)) :
    ShapeProp ((seqRun ([Ev.chdir Dir.sourceTree], none) next).1) := by
  obtain ⟨s2, tail, heq, h2, h3⟩ := hc
  have hev : (seqRun ([Ev.chdir Dir.sourceTree], none) next).1 =
      Ev.chdir Dir.sourceTree :: (next ()).1 := by
    simp [seqRun]
  rw [hev, heq]
  exact Or.inr ⟨[], s2, tail, rfl, by simp, h2, h3⟩

/-- Every trace of the embedded `main` has the pre-chdir, chdir, tool,
package-coda shape. -/
theorem mainRun_shape (a : Args) (w : World) : ShapeProp ((mainRun a w).1) := by
  rw [mainRun]
  apply shape_seq_pre _ _ (runIf_forall _ _ _ (setupEnvironmentBody_pre a w))
  apply shape_seq_pre _ _ (runIf_forall _ _ _ (downloadPgoBody_pre w))
  apply shape_seq_pre _ _ (runIf_forall _ _ _ (createArgsGnBody_pre a w))
  apply shape_chdir_tail
  apply tailShape_seq_tool _ _ (runIf_forall _ _ _ (bootstrapGnBlock_tool w))
  by_cases hci : a.ci = true
  · simp only [hci, if_true]
    apply tailShape_seq_tool _ _ (runIf_forall _ _ _ (ciBuildBlock_tool w))
    by_cases hpk : a.step = Step.package
    · simp only [runIf, hpk, reduceIte]
      exact ⟨[], [Ev.chdir Dir.rootDir, Ev.runPackage], rfl, by simp, Or.inr rfl⟩
    · simp only [runIf, hpk, reduceIte]
      exact ⟨[], [], rfl, by simp, Or.inl rfl⟩
  · simp only [hci, if_false]
    exact ⟨(nonCiNinja w).1, [], by simp, nonCiNinja_tool w, Or.inl rfl⟩

/-- C9: in every run, events of the pre-chdir step bodies execute with
the working directory still at the launch root; the directory is changed
to the source tree at most once (and the trace of chdir events is
exactly one of nothing, the single switch into the source tree, or that
switch followed by the switch back to the root for packaging); every gn
or ninja invocation runs inside the source tree; and the packaging
collaborator is invoked with the directory switched back to the launch
root. -/
theorem cwd_discipline (a : Args) (w : World) :
    (∀ pr ∈ eventCwds Dir.rootDir (mainRun a w).1, cwdOk pr) ∧
    ((mainRun a w).1.filter Ev.isChdir = [] ∨
     (mainRun a w).1.filter Ev.isChdir = [Ev.chdir Dir.sourceTree] ∨
     (mainRun a w).1.filter Ev.isChdir =
       [Ev.chdir Dir.sourceTree, Ev.chdir Dir.rootDir]) := by
  rcases mainRun_shape a w with hall | ⟨s1, s2, tail, heq, h1, h2, h3⟩
  · have hnc : ∀ e ∈ (mainRun a w).1, Ev.isChdir e = false := fun e he =>
      ((ev_kinds_disjoint e).1 (hall e he)).1
    constructor
    · intro pr hpr
      rw [eventCwds_no_chdir _ _ hnc] at hpr
      simp only [List.mem_map] at hpr
      obtain ⟨e, he, rfl⟩ := hpr
      have hp := hall e he
      refine ⟨fun _ => rfl, fun ht => ?_, fun _ => rfl⟩
      have := ((ev_kinds_disjoint e).1 hp).2.1
      rw [this] at ht
      exact absurd ht (by decide)
    · left
      rw [List.filter_eq_nil_iff]
      intro e he
      simp [hnc e he]
  · have hnc1 : ∀ e ∈ s1, Ev.isChdir e = false := fun e he =>
      ((ev_kinds_disjoint e).1 (h1 e he)).1
    have hnc2 : ∀ e ∈ s2, Ev.isChdir e = false := fun e he =>
      ((ev_kinds_disjoint e).2 (h2 e he)).1
    have hcwds : eventCwds Dir.rootDir (mainRun a w).1 =
        s1.map (fun e => (Dir.rootDir, e)) ++
        (Dir.rootDir, Ev.chdir Dir.sourceTree) ::
          (s2.map (fun e => (Dir.sourceTree, e)) ++ eventCwds Dir.sourceTree tail) := by
      rw [heq, eventCwds_append, cwdAfter_no_chdir _ _ hnc1,
        eventCwds_no_chdir _ _ hnc1, eventCwds]
      have ht : chdirTarget Dir.rootDir (Ev.chdir Dir.sourceTree) = Dir.sourceTree := rfl
      rw [ht, eventCwds_append, cwdAfter_no_chdir _ _ hnc2, eventCwds_no_chdir _ _ hnc2]
    constructor
    · intro pr hpr
      rw [hcwds] at hpr
      simp only [List.mem_append, List.mem_cons, List.mem_map] at hpr
      rcases hpr with ⟨e, he, rfl⟩ | rfl | ⟨e, he, rfl⟩ | htail
      · have hp := h1 e he
        refine ⟨fun _ => rfl, fun ht => ?_, fun _ => rfl⟩
        have := ((ev_kinds_disjoint e).1 hp).2.1
        rw [this] at ht
        exact absurd ht (by decide)
      · exact ⟨fun h => absurd h (by decide), fun h => absurd h (by decide),
          fun h => absurd h (by decide)⟩
      · have ht := h2 e he
        refine ⟨fun hp => ?_, fun _ => rfl, fun hpk => ?_⟩
        · have := ((ev_kinds_disjoint e).1 hp).2.1
          rw [this] at ht
          exact absurd ht (by decide)
        · exact absurd hpk ((ev_kinds_disjoint e).2 ht).2
      · rcases h3 with rfl | rfl
        · simp [eventCwds] at htail
        · simp [eventCwds, chdirTarget] at htail
          rcases htail with rfl | rfl
          · exact ⟨fun h => absurd h (by decide), fun h => absurd h (by decide),
              fun h => absurd h (by decide)⟩
          · exact ⟨fun h => absurd h (by decide), fun h => absurd h (by decide),
              fun _ => rfl⟩
    · rw [heq]
      have hf1 : s1.filter Ev.isChdir = [] := by
        rw [List.filter_eq_nil_iff]
        intro e he
        simp [hnc1 e he]
      have hf2 : s2.filter Ev.isChdir = [] := by
        rw [List.filter_eq_nil_iff]
        intro e he
        simp [hnc2 e he]
      rcases h3 with rfl | rfl
      · right
        left
        simp [List.filter_append, List.filter_cons, hf1, hf2, Ev.isChdir]
      · right
        right
        simp [List.filter_append, List.filter_cons, hf1, hf2, Ev.isChdir]
